import Mathlib

/-!
Shallow embedding of the solana-token-sniper streaming ingestion and
price-tracking pipeline (Go), covering:

* `internal/jupiter/client.go` — price monitor tick (`updatePrices`),
  quote handling and the profit/loss calculator (`updateProfitLoss`),
  and `Client.Close`;
* the websocket client (`Client.processMessage`, `Client.handleDisconnect`,
  `Client.Close`) from the `websocket` package;
* the scanner package (`calculateTokenMetrics`, `isTokenQualified`,
  `Scanner.processMessage`, `Scanner.scheduleReconnect`);
* the sqlite store (`SaveNewToken`, `SaveTokenPrice`, `UpdateProfitLoss`,
  `GetPriceHistory`) from the `db` package, modelled as a pure state.

Modelling conventions: Go `float64` values that flow through this code are
finite JSON numbers, carried here exactly as rationals; the one place where
the code can produce an IEEE special value — the unguarded division in
`updateProfitLoss` — is modelled by `GoFloat`, which keeps finite values
exact and represents `±Inf` and `NaN` explicitly, following the IEEE-754
rules Go applies (`x/0 = ±Inf` for `x ≠ 0`, `0/0 = NaN`). `time.Time`
values are abstract instants, modelled as naturals. Go errors are
`Option String` / `Except String` values; a Go panic is a distinguished
result constructor.
-/

namespace Sniper

/-- Go float64 results as they arise in this pipeline: finite values carried
exactly as rationals, plus the IEEE special values that the unguarded
division in `updateProfitLoss` can produce. -/
inductive GoFloat where
| fin (q : ℚ)
| inf (positive : Bool)
| nan
deriving DecidableEq, Repr

/-- Go float64 division `a / b` of finite operands: IEEE-754 gives `±Inf`
when `b = 0` and `a ≠ 0`, `NaN` when both are zero, and the exact quotient
otherwise (rounding is immaterial to the properties verified here). -/
def goDiv (a b : ℚ) : GoFloat :=
  if b = 0 then
    if a = 0 then GoFloat.nan
    else if 0 < a then GoFloat.inf true
    else GoFloat.inf false
  else GoFloat.fin (a / b)

/-- Multiplication by the positive literal `100` in `(profitLoss /
initialPrice) * 100`: it preserves the sign of an infinity and propagates
`NaN`. -/
def goTimes100 : GoFloat → GoFloat
| GoFloat.fin q => GoFloat.fin (q * 100)
| GoFloat.inf s => GoFloat.inf s
| GoFloat.nan => GoFloat.nan

/-- models.NewToken — the parsed token-creation event
(internal/models/token.go). Numeric feed fields are finite JSON floats,
carried exactly; `createdAt` is the observation instant set by the
ingestor (`token.CreatedAt = time.Now()`). -/
structure NewToken where
  bondingCurveKey : String
  initialBuy : ℚ
  marketCapSol : ℚ
  mint : String
  name : String
  signature : String
  solAmount : ℚ
  symbol : String
  traderPublicKey : String
  txType : String
  uri : String
  vSolInBondingCurve : ℚ
  vTokensInBondingCurve : ℚ
  createdAt : ℕ
deriving DecidableEq, Repr

/-- models.TokenPrice — one price point (mint, price, timestamp). -/
structure TokenPrice where
  mint : String
  price : ℚ
  timestamp : ℕ
deriving DecidableEq, Repr

/-- models.TokenProfitLoss — the per-token profit/loss record. The
percentage field is the result of the float division and so may be an IEEE
special value; all other numeric fields stay finite. -/
structure TokenProfitLoss where
  mint : String
  initialPrice : ℚ
  currentPrice : ℚ
  profitLoss : ℚ
  profitLossPct : GoFloat
  lastUpdated : ℕ
deriving DecidableEq, Repr

/-- The sqlite store of internal/db/database.go: the `tokens` table (primary
key `mint`), the `price_history` table (primary key `(mint, timestamp)`),
and the `profit_loss` table (primary key `mint`), each kept in insertion
order. -/
structure DB where
  tokens : List NewToken
  priceHistory : List TokenPrice
  profitLoss : List TokenProfitLoss
deriving DecidableEq, Repr

/-- The empty store, as created by `Initialize` on a fresh database file. -/
def DB.empty : DB := ⟨[], [], []⟩

/-- Whether the `tokens` table already holds a row for `mint`. -/
def DB.hasMint (db : DB) (mint : String) : Bool :=
  db.tokens.any (fun t => t.mint == mint)

/-- Database.SaveNewToken: a plain INSERT into `tokens`; sqlite rejects a
duplicate of the primary key `mint` and the error is returned. -/
def saveNewToken (db : DB) (t : NewToken) : Except String DB :=
  if db.hasMint t.mint then Except.error "UNIQUE constraint failed: tokens.mint"
  else Except.ok { db with tokens := db.tokens ++ [t] }

/-- Database.SaveTokenPrice: a plain INSERT into `price_history`; sqlite
rejects a duplicate of the primary key `(mint, timestamp)`. -/
def saveTokenPrice (db : DB) (p : TokenPrice) : Except String DB :=
  if db.priceHistory.any (fun q => q.mint == p.mint && q.timestamp == p.timestamp) then
    Except.error "UNIQUE constraint failed: price_history.mint, price_history.timestamp"
  else Except.ok { db with priceHistory := db.priceHistory ++ [p] }

/-- Database.UpdateProfitLoss: INSERT OR REPLACE keyed by `mint` — the live
record for the token is overwritten, never appended. -/
def dbUpdateProfitLoss (db : DB) (pl : TokenProfitLoss) : DB :=
  { db with profitLoss := db.profitLoss.filter (fun r => !(r.mint == pl.mint)) ++ [pl] }

/-- Insertion into a most-recent-first list, keeping later-timestamped
points in front (ties keep the existing relative order, as sqlite does for
equal ORDER BY keys). -/
def insertDesc (p : TokenPrice) : List TokenPrice → List TokenPrice
| [] => [p]
| q :: rest => if q.timestamp < p.timestamp then p :: q :: rest else q :: insertDesc p rest

/-- ORDER BY timestamp DESC over a list of price points. -/
def sortByTimestampDesc : List TokenPrice → List TokenPrice
| [] => []
| p :: rest => insertDesc p (sortByTimestampDesc rest)

/-- Database.GetPriceHistory: the token's price points, most recent first
(`WHERE mint = ? ORDER BY timestamp DESC`). -/
def getPriceHistory (db : DB) (mint : String) : List TokenPrice :=
  sortByTimestampDesc (db.priceHistory.filter (fun p => p.mint == mint))

/-- Fallback price point for the (unreachable under `2 ≤ length`) total
reading of the Go indexing `prices[len(prices)-1]` / `prices[0]`. -/
def noPoint : TokenPrice := ⟨"", 0, 0⟩

namespace Jupiter

/-- Client.updateProfitLoss (internal/jupiter/client.go), the pure part:
given the list GetPriceHistory returned (most recent first), fewer than two
points is returned as the wrapped "failed to get price history" error;
otherwise `initialPrice := prices[len(prices)-1].Price`, `currentPrice :=
prices[0].Price`, `profitLoss := currentPrice - initialPrice` and
`profitLossPct := (profitLoss / initialPrice) * 100` with no guard on
`initialPrice = 0`. -/
def updateProfitLossCalc (mint : String) (now : ℕ) (prices : List TokenPrice) :
    Except String TokenProfitLoss :=
  if prices.length < 2 then
    Except.error "failed to get price history: %!w(<nil>)"
  else
    let initialPrice := (prices.getLast?.getD noPoint).price
    let currentPrice := (prices.head?.getD noPoint).price
    let profitLoss := currentPrice - initialPrice
    let profitLossPct := goTimes100 (goDiv profitLoss initialPrice)
    Except.ok ⟨mint, initialPrice, currentPrice, profitLoss, profitLossPct, now⟩

/-- Client.updateProfitLoss with its store effect: it loads the history
with GetPriceHistory (`histErr` injects a query failure, folded into the
same error return as the too-short case, exactly as `if err != nil ||
len(prices) < 2` does), and on success upserts the record via
Database.UpdateProfitLoss. Returns the new store and the Go error. -/
def updateProfitLoss (histErr : Option String) (db : DB) (mint : String) (now : ℕ) :
    DB × Option String :=
  match histErr with
  | some e => (db, some ("failed to get price history: " ++ e))
  | none =>
    match updateProfitLossCalc mint now (getPriceHistory db mint) with
    | Except.error e => (db, some e)
    | Except.ok pl => (dbUpdateProfitLoss db pl, none)

end Jupiter

/-- One store write of the websocket ingestor or the scanner, as it appears
in the write sequence of a single message. -/
inductive WriteOp where
| saveToken (t : NewToken)
| savePrice (p : TokenPrice)
| upsertPL (pl : TokenProfitLoss)
| recordToken (mint symbol : String) (price : ℚ) (ts : ℕ)
deriving DecidableEq, Repr

/-- Injected I/O failures for the three store calls of
websocket Client.processMessage (disk or driver errors beyond the key
conflicts the store model raises itself); `none` means the call reaches
sqlite. -/
structure FailOracle where
  tokenWriteErr : Option String
  priceWriteErr : Option String
  plWriteErr : Option String
deriving DecidableEq, Repr

/-- The oracle that injects no failure. -/
def FailOracle.ok : FailOracle := ⟨none, none, none⟩

namespace Ws

/-- websocket Client.processMessage: unmarshal the payload (a `none`
message models an undecodable one), stamp `token.CreatedAt = time.Now()`,
then three store calls in sequence — SaveNewToken, SaveTokenPrice of the
initial point `{Mint, Price: token.InitialBuy, Timestamp: token.CreatedAt}`,
and UpdateProfitLoss of `{InitialPrice = CurrentPrice = token.InitialBuy,
ProfitLoss = 0, ProfitLossPct = 0, LastUpdated: token.CreatedAt}` — each
returning its error immediately, with no rollback of earlier writes and no
deduplication or qualification check of any kind. Result: the new store,
the attempted writes in order (each with its success flag), and the Go
error. -/
def processMessage (o : FailOracle) (db : DB) (msg : Option NewToken) (now : ℕ) :
    DB × List (WriteOp × Bool) × Option String :=
  match msg with
  | none => (db, [], some "invalid character in message")
  | some tok0 =>
    let tok := { tok0 with createdAt := now }
    let r1 : Except String DB :=
      match o.tokenWriteErr with
      | some e => Except.error e
      | none => saveNewToken db tok
    match r1 with
    | Except.error e => (db, [(WriteOp.saveToken tok, false)], some e)
    | Except.ok db1 =>
      let pp : TokenPrice := ⟨tok.mint, tok.initialBuy, tok.createdAt⟩
      let r2 : Except String DB :=
        match o.priceWriteErr with
        | some e => Except.error e
        | none => saveTokenPrice db1 pp
      match r2 with
      | Except.error e =>
        (db1, [(WriteOp.saveToken tok, true), (WriteOp.savePrice pp, false)], some e)
      | Except.ok db2 =>
        let pl : TokenProfitLoss :=
          ⟨tok.mint, tok.initialBuy, tok.initialBuy, 0, GoFloat.fin 0, tok.createdAt⟩
        match o.plWriteErr with
        | some e =>
          (db2, [(WriteOp.saveToken tok, true), (WriteOp.savePrice pp, true),
                 (WriteOp.upsertPL pl, false)], some e)
        | none =>
          (dbUpdateProfitLoss db2 pl,
           [(WriteOp.saveToken tok, true), (WriteOp.savePrice pp, true),
            (WriteOp.upsertPL pl, true)], none)

end Ws

/-- scanner TokenMetrics: derived bonding-curve metrics, zero-valued where
the guarded divisions are skipped. -/
structure TokenMetrics where
  tokenPrice : ℚ
  liquidityRatio : ℚ
  marketDepth : ℚ
  creationTime : ℕ
deriving DecidableEq, Repr

namespace Scan

/-- Scanner.calculateTokenMetrics: starts from the zero-valued struct;
`TokenPrice = VSolInBondingCurve / VTokensInBondingCurve` only when
`VTokensInBondingCurve > 0`, `LiquidityRatio = VSolInBondingCurve /
MarketCapSol` only when `MarketCapSol > 0`, `MarketDepth` is the product,
and `CreationTime = time.Now()`. -/
def calculateTokenMetrics (token : NewToken) (now : ℕ) : TokenMetrics :=
  { tokenPrice :=
      if 0 < token.vTokensInBondingCurve then
        token.vSolInBondingCurve / token.vTokensInBondingCurve
      else 0,
    liquidityRatio :=
      if 0 < token.marketCapSol then token.vSolInBondingCurve / token.marketCapSol
      else 0,
    marketDepth := token.vSolInBondingCurve * token.vTokensInBondingCurve,
    creationTime := now }

/-- Scanner.isTokenQualified: reject when the market cap is below the
configured minimum, the sol in the bonding curve is below the configured
minimum liquidity, or the liquidity ratio is below the fixed 0.1 policy
constant; otherwise accept. -/
def isTokenQualified (minMarketCap minLiquidity : ℚ) (token : NewToken)
    (metrics : TokenMetrics) : Bool :=
  if token.marketCapSol < minMarketCap then false
  else if token.vSolInBondingCurve < minLiquidity then false
  else if metrics.liquidityRatio < 1 / 10 then false
  else true

/-- The scanner state the ingestion path touches: the `seenTokens` map and
the two configured thresholds. -/
structure Scanner where
  seenTokens : List (String × TokenMetrics)
  minMarketCap : ℚ
  minLiquidity : ℚ
deriving DecidableEq, Repr

/-- Membership of a mint in the scanner's seenTokens map. -/
def Scanner.seen (s : Scanner) (mint : String) : Bool :=
  s.seenTokens.any (fun kv => kv.1 == mint)

/-- Scanner.processMessage: unmarshal; return nil early when the mint is
already in seenTokens (no write, no error); otherwise compute the metrics,
insert the mint into seenTokens inside the same critical section, drop the
event with a nil return when isTokenQualified rejects it, and only then
record the token event (RecordTokenPrice with the computed price) to the
store. Result: the new scanner state, the store writes, and the Go
error. -/
def processMessage (s : Scanner) (msg : Option NewToken) (now : ℕ) :
    Scanner × List WriteOp × Option String :=
  match msg with
  | none => (s, [], some "failed to unmarshal token event")
  | some token =>
    if s.seen token.mint then (s, [], none)
    else
      let metrics := calculateTokenMetrics token now
      let s1 := { s with seenTokens := s.seenTokens ++ [(token.mint, metrics)] }
      if isTokenQualified s.minMarketCap s.minLiquidity token metrics then
        (s1, [WriteOp.recordToken token.mint token.symbol metrics.tokenPrice now], none)
      else (s1, [], none)

/-- The parts of the Scanner state that scheduleReconnect touches: whether
the one-slot reconnectCh already holds a pending request, and whether
shutdown (Stop, which cancels the context) has been signalled. -/
structure ReconnectState where
  reconnectPending : Bool
  shutdownSignalled : Bool
deriving DecidableEq, Repr

/-- Scanner.scheduleReconnect: the select either places the request on the
one-slot reconnectCh and then runs `time.Sleep(5 * time.Second)` — a sleep
with no cancellation path, so its duration does not depend on the shutdown
flag — or hits the default case and returns at once. Result: the new state
and the seconds slept. -/
def scheduleReconnect (st : ReconnectState) : ReconnectState × ℕ :=
  if st.reconnectPending then (st, 0)
  else ({ st with reconnectPending := true }, 5)

end Scan

/-- One firing of the select inside websocket Client.handleDisconnect's
retry loop: the context was cancelled, the done channel was closed by
Close, or the 5-second ticker delivered a tick. -/
inductive WaitEvent where
| ctxDone
| doneClosed
| tick
deriving DecidableEq, Repr

namespace Ws

/-- websocket Client.handleDisconnect's retry loop, driven by the sequence
of select firings: a `ctxDone` or `doneClosed` firing returns at once with
no further Connect attempt; a `tick` firing attempts Connect (the
`connectOk` oracle says whether the nth attempt succeeds), returning on
success and looping on failure. Result: the total number of Connect
attempts made, starting from `attempts` already made. -/
def handleDisconnectLoop (connectOk : ℕ → Bool) : List WaitEvent → ℕ → ℕ
| [], attempts => attempts
| WaitEvent.ctxDone :: _, attempts => attempts
| WaitEvent.doneClosed :: _, attempts => attempts
| WaitEvent.tick :: rest, attempts =>
  if connectOk attempts then attempts + 1
  else handleDisconnectLoop connectOk rest (attempts + 1)

/-- The websocket client fields Close touches: whether `done` has already
been closed and whether a connection handle is present. -/
structure WsClient where
  doneClosed : Bool
  hasConn : Bool
deriving DecidableEq, Repr

/-- The outcome of a Close call: a normal return carrying the Go error of
the close-frame write (the transport write itself is modelled as
succeeding), or a runtime panic. -/
inductive CloseResult where
| ret (err : Option String)
| panicked (msg : String)
deriving DecidableEq, Repr

/-- websocket Client.Close: under the mutex it runs `close(c.done)` — which
panics with "close of closed channel" when `done` is already closed — and
then, if a connection is present, writes the close frame and returns its
error, else returns nil. -/
def close (c : WsClient) : WsClient × CloseResult :=
  if c.doneClosed then (c, CloseResult.panicked "close of closed channel")
  else ({ c with doneClosed := true }, CloseResult.ret none)

end Ws

namespace Jupiter

/-- jupiter Client.Close: `close(c.done)` with no guard, so a second call
panics exactly like the websocket client's. Takes and returns the
done-channel state. -/
def close (doneClosed : Bool) : Bool × Ws.CloseResult :=
  if doneClosed then (doneClosed, Ws.CloseResult.panicked "close of closed channel")
  else (true, Ws.CloseResult.ret none)

/-- The per-token body of Client.updatePrices, iterated over the fetched
token list: before each token the select checks the shutdown context and
returns nil mid-list when it fired; then getQuote — on error, log and
`continue` to the next token; on success SaveTokenPrice of the quoted
price at the current time — on error, log and `continue`; then
updateProfitLoss — its error is also logged and the loop continues. The
loop itself always ends with a nil return. -/
def updatePricesLoop (shutdown : Bool) (quote : String → Except String ℚ) (now : ℕ) :
    DB → List NewToken → DB × Option String
| db, [] => (db, none)
| db, token :: rest =>
  if shutdown then (db, none)
  else
    match quote token.mint with
    | Except.error _ => updatePricesLoop shutdown quote now db rest
    | Except.ok price =>
      match saveTokenPrice db ⟨token.mint, price, now⟩ with
      | Except.error _ => updatePricesLoop shutdown quote now db rest
      | Except.ok db1 =>
        updatePricesLoop shutdown quote now (updateProfitLoss none db1 token.mint now).1 rest

/-- Client.updatePrices: fetch up to queueSize recent tokens
(GetTokensInQueue; `fetch` carries its result) — a fetch failure is the
only error return of the tick — then run the per-token loop. -/
def updatePrices (shutdown : Bool) (quote : String → Except String ℚ) (now : ℕ)
    (db : DB) (fetch : Except String (List NewToken)) : DB × Option String :=
  match fetch with
  | Except.error e => (db, some ("failed to get tokens from queue: " ++ e))
  | Except.ok tokens => updatePricesLoop shutdown quote now db tokens

end Jupiter

/-- A concrete inbound token-creation event with zero market cap (every
other field populated), used to exercise the ingestion paths. -/
def tokLowCap : NewToken :=
  ⟨"bc", 1, 0, "m1", "Tok", "sig", 2, "TK", "tr", "create", "u", 3, 30, 0⟩

/-! Theorems. -/

/-- A successful SaveTokenPrice leaves the tokens table unchanged. -/
lemma saveTokenPrice_tokens (db : DB) (p : TokenPrice) (db2 : DB)
    (h : saveTokenPrice db p = Except.ok db2) : db2.tokens = db.tokens := by
  unfold saveTokenPrice at h
  split at h
  · exact absurd h (by simp)
  · simp only [Except.ok.injEq] at h
    subst h
    rfl

/-- After Scanner.processMessage handles an event, its mint is in the
seenTokens map (it either already was, or has just been inserted). -/
lemma scanner_seen_after (s : Scan.Scanner) (token : NewToken) (now : ℕ) :
    ((Scan.processMessage s (some token) now).1).seen token.mint = true := by
  by_cases h : s.seen token.mint = true
  · simp [Scan.processMessage, h]
  · have h' : s.seen token.mint = false := by simpa using h
    simp only [Scan.processMessage, h', Bool.false_eq_true, if_false]
    split <;> simp [Scan.Scanner.seen, List.any_append]

/-- Dividing a nonzero-or-zero finite value by zero and scaling by 100
never yields a finite zero: the result is `NaN` or a signed infinity. -/
lemma goTimes100_goDiv_zero (a : ℚ) :
    goTimes100 (goDiv a 0) ≠ GoFloat.fin 0 ∧
    (goTimes100 (goDiv a 0) = GoFloat.nan ∨ goTimes100 (goDiv a 0) = GoFloat.inf true ∨
      goTimes100 (goDiv a 0) = GoFloat.inf false) := by
  by_cases h : a = 0
  · simp [goDiv, goTimes100, h]
  · by_cases hp : 0 < a <;> simp [goDiv, goTimes100, h, hp]

/-- C1 (amended): with at least 2 history points the recomputation sets
percentage to `(delta / initialPrice) * 100` under Go float semantics —
for `initialPrice ≠ 0` the exact finite value, but for `initialPrice = 0`
the division is unguarded, so the percentage is `NaN` or `±Inf` and in
particular never the claimed 0. -/
theorem updateProfitLoss_pct_formula (mint : String) (now : ℕ) (prices : List TokenPrice)
    (h : 2 ≤ prices.length) :
    ∃ pl, Jupiter.updateProfitLossCalc mint now prices = Except.ok pl ∧
      pl.profitLossPct =
        goTimes100 (goDiv (pl.currentPrice - pl.initialPrice) pl.initialPrice) ∧
      (pl.initialPrice ≠ 0 →
        pl.profitLossPct =
          GoFloat.fin ((pl.currentPrice - pl.initialPrice) / pl.initialPrice * 100)) ∧
      (pl.initialPrice = 0 →
        pl.profitLossPct ≠ GoFloat.fin 0 ∧
          (pl.profitLossPct = GoFloat.nan ∨ pl.profitLossPct = GoFloat.inf true ∨
            pl.profitLossPct = GoFloat.inf false)) := by
  unfold Jupiter.updateProfitLossCalc
  rw [if_neg (by omega)]
  refine ⟨_, rfl, rfl, ?_, ?_⟩
  · intro hne
    simp [goDiv, goTimes100, hne]
  · intro h0
    dsimp only at h0 ⊢
    rw [h0, sub_zero]
    exact goTimes100_goDiv_zero _

/-- Witness for updateProfitLoss_pct_formula at a concrete two-point
history. -/
theorem updateProfitLoss_pct_formula_w :
    2 ≤ ([⟨"m", 2, 2⟩, ⟨"m", 1, 1⟩] : List TokenPrice).length ∧
    ∃ pl, Jupiter.updateProfitLossCalc "m" 3 [⟨"m", 2, 2⟩, ⟨"m", 1, 1⟩] = Except.ok pl ∧
      pl.profitLossPct =
        goTimes100 (goDiv (pl.currentPrice - pl.initialPrice) pl.initialPrice) ∧
      (pl.initialPrice ≠ 0 →
        pl.profitLossPct =
          GoFloat.fin ((pl.currentPrice - pl.initialPrice) / pl.initialPrice * 100)) ∧
      (pl.initialPrice = 0 →
        pl.profitLossPct ≠ GoFloat.fin 0 ∧
          (pl.profitLossPct = GoFloat.nan ∨ pl.profitLossPct = GoFloat.inf true ∨
            pl.profitLossPct = GoFloat.inf false)) :=
  ⟨by decide, updateProfitLoss_pct_formula "m" 3 [⟨"m", 2, 2⟩, ⟨"m", 1, 1⟩] (by decide)⟩

/-- C1 counterexample: a two-point most-recent-first history whose oldest
price is 0 — the recomputation succeeds and its percentage is `+Inf`, not
the 0 the claim requires. -/
theorem updateProfitLoss_zero_initial_cex :
    Jupiter.updateProfitLossCalc "m" 3 [⟨"m", 1, 2⟩, ⟨"m", 0, 1⟩] =
      Except.ok ⟨"m", 0, 1, 1, GoFloat.inf true, 3⟩ ∧
    GoFloat.inf true ≠ GoFloat.fin 0 := by
  constructor
  · norm_num [Jupiter.updateProfitLossCalc, goDiv, goTimes100, noPoint]
  · simp

/-- C2 (amended): with fewer than 2 history points, updateProfitLoss
returns the "failed to get price history" error to its caller and writes
no ProfitLoss record (the store is unchanged); the skip happens in the
caller, which logs the error and continues. -/
theorem updateProfitLoss_short_history (histErr : Option String) (db : DB) (mint : String)
    (now : ℕ) (h : (getPriceHistory db mint).length < 2) :
    (Jupiter.updateProfitLoss histErr db mint now).1 = db ∧
    (Jupiter.updateProfitLoss histErr db mint now).2 ≠ none := by
  cases histErr with
  | some e => simp [Jupiter.updateProfitLoss]
  | none => simp [Jupiter.updateProfitLoss, Jupiter.updateProfitLossCalc, if_pos h]

/-- Witness for updateProfitLoss_short_history at a store holding a single
price point for the token. -/
theorem updateProfitLoss_short_history_w :
    (getPriceHistory ⟨[], [⟨"m", 1, 1⟩], []⟩ "m").length < 2 ∧
    ((Jupiter.updateProfitLoss none ⟨[], [⟨"m", 1, 1⟩], []⟩ "m" 2).1 = ⟨[], [⟨"m", 1, 1⟩], []⟩ ∧
      (Jupiter.updateProfitLoss none ⟨[], [⟨"m", 1, 1⟩], []⟩ "m" 2).2 ≠ none) :=
  ⟨by decide, updateProfitLoss_short_history none ⟨[], [⟨"m", 1, 1⟩], []⟩ "m" 2 (by decide)⟩

/-- C2 counterexample: on a single-point history the recomputation is not
an errorless skip — it returns the wrapped "failed to get price history"
error to the caller (the store is indeed left unwritten). -/
theorem updateProfitLoss_single_point_cex :
    Jupiter.updateProfitLoss none ⟨[], [⟨"m", 1, 1⟩], []⟩ "m" 2 =
      (⟨[], [⟨"m", 1, 1⟩], []⟩, some "failed to get price history: %!w(<nil>)") ∧
    (some "failed to get price history: %!w(<nil>)" : Option String) ≠ none := by
  constructor
  · simp [Jupiter.updateProfitLoss, Jupiter.updateProfitLossCalc, getPriceHistory,
      sortByTimestampDesc, insertDesc, List.filter]
  · simp

/-- C6: with the history most-recent-first (head the newest point, last the
oldest), the recomputed record takes initialPrice from the last element and
currentPrice from the head; and on the spec's concrete store — points
(t0, 1.0) and (t1, 1.5) with t1 newer, ordered by GetPriceHistory — the
result is initialPrice 1, currentPrice 1.5, delta 0.5, percentage 50. -/
theorem updateProfitLoss_endpoints (mint : String) (now : ℕ) (prices : List TokenPrice)
    (pfirst plast : TokenPrice) (hf : prices.head? = some pfirst)
    (hl : prices.getLast? = some plast) (h2 : 2 ≤ prices.length) :
    Jupiter.updateProfitLossCalc mint now prices =
      Except.ok ⟨mint, plast.price, pfirst.price, pfirst.price - plast.price,
        goTimes100 (goDiv (pfirst.price - plast.price) plast.price), now⟩ ∧
    Jupiter.updateProfitLossCalc "m" 5
        (getPriceHistory ⟨[], [⟨"m", 1, 0⟩, ⟨"m", 3/2, 1⟩], []⟩ "m") =
      Except.ok ⟨"m", 1, 3/2, 1/2, GoFloat.fin 50, 5⟩ := by
  constructor
  · unfold Jupiter.updateProfitLossCalc
    rw [if_neg (by omega), hf, hl]
    rfl
  · norm_num [Jupiter.updateProfitLossCalc, goDiv, goTimes100, noPoint, getPriceHistory,
      sortByTimestampDesc, insertDesc, List.filter]

/-- Witness for updateProfitLoss_endpoints at a concrete two-point
history. -/
theorem updateProfitLoss_endpoints_w :
    ([⟨"m", 2, 2⟩, ⟨"m", 1, 1⟩] : List TokenPrice).head? = some ⟨"m", 2, 2⟩ ∧
    ([⟨"m", 2, 2⟩, ⟨"m", 1, 1⟩] : List TokenPrice).getLast? = some ⟨"m", 1, 1⟩ ∧
    2 ≤ ([⟨"m", 2, 2⟩, ⟨"m", 1, 1⟩] : List TokenPrice).length ∧
    (Jupiter.updateProfitLossCalc "m" 9 [⟨"m", 2, 2⟩, ⟨"m", 1, 1⟩] =
      Except.ok ⟨"m", (⟨"m", 1, 1⟩ : TokenPrice).price, (⟨"m", 2, 2⟩ : TokenPrice).price,
        (⟨"m", 2, 2⟩ : TokenPrice).price - (⟨"m", 1, 1⟩ : TokenPrice).price,
        goTimes100 (goDiv ((⟨"m", 2, 2⟩ : TokenPrice).price - (⟨"m", 1, 1⟩ : TokenPrice).price)
          (⟨"m", 1, 1⟩ : TokenPrice).price), 9⟩ ∧
      Jupiter.updateProfitLossCalc "m" 5
          (getPriceHistory ⟨[], [⟨"m", 1, 0⟩, ⟨"m", 3/2, 1⟩], []⟩ "m") =
        Except.ok ⟨"m", 1, 3/2, 1/2, GoFloat.fin 50, 5⟩) :=
  ⟨by decide, by decide, by decide,
    updateProfitLoss_endpoints "m" 9 [⟨"m", 2, 2⟩, ⟨"m", 1, 1⟩] ⟨"m", 2, 2⟩ ⟨"m", 1, 1⟩
      (by decide) (by decide) (by decide)⟩

/-- C10: calculateTokenMetrics leaves the token price at its zero value
when vTokensInBondingCurve is 0 (the guarded division is skipped, so no
division-by-zero occurs), and leaves the liquidity ratio at 0 when
marketCapSol is 0. -/
theorem calculateTokenMetrics_zero_guards (token : NewToken) (now : ℕ) :
    (token.vTokensInBondingCurve = 0 →
      (Scan.calculateTokenMetrics token now).tokenPrice = 0) ∧
    (token.marketCapSol = 0 →
      (Scan.calculateTokenMetrics token now).liquidityRatio = 0) := by
  constructor
  · intro h
    simp [Scan.calculateTokenMetrics, h]
  · intro h
    simp [Scan.calculateTokenMetrics, h]

/-- Witness for calculateTokenMetrics_zero_guards at a token whose curve
token volume and market cap are both zero. -/
theorem calculateTokenMetrics_zero_guards_w :
    (Scan.calculateTokenMetrics ⟨"bc", 1, 0, "m1", "T", "s", 2, "TK", "tr", "create", "u", 3, 0, 0⟩
      4).tokenPrice = 0 ∧
    (Scan.calculateTokenMetrics ⟨"bc", 1, 0, "m1", "T", "s", 2, "TK", "tr", "create", "u", 3, 0, 0⟩
      4).liquidityRatio = 0 :=
  ⟨(calculateTokenMetrics_zero_guards _ 4).1 rfl,
   (calculateTokenMetrics_zero_guards _ 4).2 rfl⟩

/-- C3 (amended): a first Close() on an open client returns normally, but —
because close(c.done) is unguarded — a second call panics with "close of
closed channel" instead of being a no-op; the jupiter client's Close has
the same unguarded close and panics the same way. -/
theorem close_second_call_panics (c : Ws.WsClient) (h : c.doneClosed = false) :
    (Ws.close c).2 = Ws.CloseResult.ret none ∧
    (Ws.close (Ws.close c).1).2 = Ws.CloseResult.panicked "close of closed channel" ∧
    (Jupiter.close true).2 = Ws.CloseResult.panicked "close of closed channel" := by
  refine ⟨?_, ?_, rfl⟩ <;> simp [Ws.close, h]

/-- Witness for close_second_call_panics on a connected, not yet closed
client. -/
theorem close_second_call_panics_w :
    (Ws.close ⟨false, true⟩).2 = Ws.CloseResult.ret none ∧
    (Ws.close (Ws.close ⟨false, true⟩).1).2 =
      Ws.CloseResult.panicked "close of closed channel" ∧
    (Jupiter.close true).2 = Ws.CloseResult.panicked "close of closed channel" :=
  close_second_call_panics ⟨false, true⟩ rfl

/-- C3 counterexample: on a concrete connected client the first Close
returns nil but the second call panics — it is neither a no-op nor an
"already closed" report. -/
theorem close_twice_cex :
    (Ws.close ⟨false, true⟩).2 = Ws.CloseResult.ret none ∧
    (Ws.close (Ws.close ⟨false, true⟩).1).2 =
      Ws.CloseResult.panicked "close of closed channel" ∧
    Ws.CloseResult.panicked "close of closed channel" ≠ Ws.CloseResult.ret none := by
  refine ⟨by simp [Ws.close], by simp [Ws.close], by simp⟩

/-- C8: during one price-monitor tick, a failing quote for the token at the
head of the list only skips that token — the rest of the list is processed
exactly as it would have been on its own — and the per-token loop never
returns an error, whatever the quote results. -/
theorem updatePrices_quote_failure_skips (quote : String → Except String ℚ) (now : ℕ)
    (db : DB) (token : NewToken) (rest : List NewToken) (e : String)
    (hq : quote token.mint = Except.error e) :
    Jupiter.updatePricesLoop false quote now db (token :: rest) =
      Jupiter.updatePricesLoop false quote now db rest ∧
    ∀ (d : DB) (l : List NewToken), (Jupiter.updatePricesLoop false quote now d l).2 = none := by
  constructor
  · simp [Jupiter.updatePricesLoop, hq]
  · intro d l
    induction l generalizing d with
    | nil => rfl
    | cons t ts ih =>
      simp only [Jupiter.updatePricesLoop, Bool.false_eq_true, if_false]
      cases hq2 : quote t.mint with
      | error e2 => simp [hq2, ih]
      | ok price =>
        simp only [hq2]
        cases hsp : saveTokenPrice d ⟨t.mint, price, now⟩ with
        | error e3 => simp [hsp, ih]
        | ok d1 => simp [hsp, ih]

/-- Witness for updatePrices_quote_failure_skips: the quote provider that
fails on one mint and succeeds on another. -/
theorem updatePrices_quote_failure_skips_w :
    (fun m => if m == "bad" then (Except.error "no valid quote response received" : Except String ℚ)
      else Except.ok 2) "bad" = Except.error "no valid quote response received" ∧
    (Jupiter.updatePricesLoop false
        (fun m => if m == "bad" then (Except.error "no valid quote response received" : Except String ℚ)
          else Except.ok 2) 3 DB.empty
        [⟨"bc", 1, 5, "bad", "B", "s", 2, "BK", "tr", "create", "u", 3, 30, 0⟩] =
      Jupiter.updatePricesLoop false
        (fun m => if m == "bad" then (Except.error "no valid quote response received" : Except String ℚ)
          else Except.ok 2) 3 DB.empty [] ∧
      ∀ (d : DB) (l : List NewToken),
        (Jupiter.updatePricesLoop false
          (fun m => if m == "bad" then (Except.error "no valid quote response received" : Except String ℚ)
            else Except.ok 2) 3 d l).2 = none) :=
  ⟨rfl,
   updatePrices_quote_failure_skips _ 3 DB.empty
     ⟨"bc", 1, 5, "bad", "B", "s", 2, "BK", "tr", "create", "u", 3, 30, 0⟩ []
     "no valid quote response received" rfl⟩

/-- C9 (amended): in the websocket client's handleDisconnect, a shutdown
firing (context cancelled or done closed) makes the retry loop return at
once with no further Connect attempt; in the scanner's scheduleReconnect,
however, the 5-second time.Sleep has no cancellation path, so the wait
always runs the full fixed delay even when shutdown is already
signalled. -/
theorem reconnect_wait_shutdown (connectOk : ℕ → Bool) (es : List WaitEvent) (a : ℕ)
    (st : Scan.ReconnectState) (h : st.reconnectPending = false) :
    Ws.handleDisconnectLoop connectOk (WaitEvent.ctxDone :: es) a = a ∧
    Ws.handleDisconnectLoop connectOk (WaitEvent.doneClosed :: es) a = a ∧
    (Scan.scheduleReconnect st).2 = 5 := by
  refine ⟨rfl, rfl, ?_⟩
  simp [Scan.scheduleReconnect, h]

/-- Witness for reconnect_wait_shutdown with shutdown signalled and no
reconnect yet pending. -/
theorem reconnect_wait_shutdown_w :
    Ws.handleDisconnectLoop (fun _ => false) [WaitEvent.ctxDone, WaitEvent.tick] 0 = 0 ∧
    Ws.handleDisconnectLoop (fun _ => false) [WaitEvent.doneClosed, WaitEvent.tick] 0 = 0 ∧
    (Scan.scheduleReconnect ⟨false, true⟩).2 = 5 :=
  reconnect_wait_shutdown (fun _ => false) [WaitEvent.tick] 0 ⟨false, true⟩ rfl

/-- C4 (amended): in the scanner ingestion path a token whose market cap
is below the configured minimum is never persisted — processMessage drops
it with no store write and a nil return; the websocket client ingestion
path, however, applies no qualification filter: it appends every parsed
event with a fresh mint to the tokens table regardless of its market
cap. -/
theorem lowcap_scanner_vs_ws (s : Scan.Scanner) (token : NewToken) (now : ℕ)
    (h : token.marketCapSol < s.minMarketCap) :
    (Scan.processMessage s (some token) now).2.1 = [] ∧
    (Scan.processMessage s (some token) now).2.2 = none ∧
    ∀ (db : DB) (now2 : ℕ), db.hasMint token.mint = false →
      ((Ws.processMessage FailOracle.ok db (some token) now2).1).tokens =
        db.tokens ++ [{ token with createdAt := now2 }] := by
  have hq : Scan.isTokenQualified s.minMarketCap s.minLiquidity token
      (Scan.calculateTokenMetrics token now) = false := by
    unfold Scan.isTokenQualified
    rw [if_pos h]
  refine ⟨?_, ?_, ?_⟩
  · by_cases hseen : s.seen token.mint = true
    · simp [Scan.processMessage, hseen]
    · have h' : s.seen token.mint = false := by simpa using hseen
      simp [Scan.processMessage, h', hq]
  · by_cases hseen : s.seen token.mint = true
    · simp [Scan.processMessage, hseen]
    · have h' : s.seen token.mint = false := by simpa using hseen
      simp [Scan.processMessage, h', hq]
  · intro db now2 hf
    simp only [Ws.processMessage, FailOracle.ok]
    rw [saveNewToken]
    simp only [hf, Bool.false_eq_true, if_false]
    cases hsp : saveTokenPrice { db with tokens := db.tokens ++ [{ token with createdAt := now2 }] }
        ⟨({ token with createdAt := now2 } : NewToken).mint,
         ({ token with createdAt := now2 } : NewToken).initialBuy,
         ({ token with createdAt := now2 } : NewToken).createdAt⟩ with
    | error e2 => simp [hsp]
    | ok db2 =>
      have := saveTokenPrice_tokens _ _ _ hsp
      simp [hsp, dbUpdateProfitLoss, this]

/-- Witness for lowcap_scanner_vs_ws: a scanner configured with a 10 SOL
minimum market cap and the concrete zero-market-cap event. -/
theorem lowcap_scanner_vs_ws_w :
    tokLowCap.marketCapSol < (⟨[], 10, 1⟩ : Scan.Scanner).minMarketCap ∧
    ((Scan.processMessage ⟨[], 10, 1⟩ (some tokLowCap) 4).2.1 = [] ∧
      (Scan.processMessage ⟨[], 10, 1⟩ (some tokLowCap) 4).2.2 = none ∧
      ∀ (db : DB) (now2 : ℕ), db.hasMint tokLowCap.mint = false →
        ((Ws.processMessage FailOracle.ok db (some tokLowCap) now2).1).tokens =
          db.tokens ++ [{ tokLowCap with createdAt := now2 }]) :=
  ⟨by norm_num [tokLowCap],
   lowcap_scanner_vs_ws ⟨[], 10, 1⟩ tokLowCap 4 (by norm_num [tokLowCap])⟩

/-- C4 counterexample: the zero-market-cap event — below the configured
minimum of 10 — is nevertheless persisted to the tokens table by the
websocket client's processMessage, with a nil error. -/
theorem lowcap_persisted_cex :
    tokLowCap.marketCapSol < 10 ∧
    ((Ws.processMessage FailOracle.ok DB.empty (some tokLowCap) 7).1).tokens =
      [{ tokLowCap with createdAt := 7 }] ∧
    (Ws.processMessage FailOracle.ok DB.empty (some tokLowCap) 7).2.2 = none := by
  refine ⟨by norm_num [tokLowCap], rfl, rfl⟩

/-- C5 (amended): in the scanner path a second ingestion of the same event
finds the mint in seenTokens and is a pure no-op — state unchanged, no
store write, nil error; the websocket client path has no seen-set: once the
token is in the store, re-ingesting the same payload attempts SaveNewToken
again, the insert fails on the tokens primary key, and that error is
returned with the store unchanged. -/
theorem duplicate_ingestion_paths (s : Scan.Scanner) (token : NewToken) (now1 now2 : ℕ)
    (db : DB) (hdb : db.hasMint token.mint = true) :
    Scan.processMessage (Scan.processMessage s (some token) now1).1 (some token) now2 =
      ((Scan.processMessage s (some token) now1).1, [], none) ∧
    Ws.processMessage FailOracle.ok db (some token) now2 =
      (db, [(WriteOp.saveToken { token with createdAt := now2 }, false)],
        some "UNIQUE constraint failed: tokens.mint") := by
  constructor
  · have hseen := scanner_seen_after s token now1
    cases hp : Scan.processMessage s (some token) now1 with
    | mk s1 r =>
      have hseen1 : s1.seen token.mint = true := by rw [hp] at hseen; exact hseen
      simp [Scan.processMessage, hseen1]
  · simp [Ws.processMessage, FailOracle.ok, saveNewToken, hdb]

/-- Witness for duplicate_ingestion_paths: a fresh scanner and a store that
already holds the concrete token. -/
theorem duplicate_ingestion_paths_w :
    (⟨[tokLowCap], [], []⟩ : DB).hasMint tokLowCap.mint = true ∧
    (Scan.processMessage (Scan.processMessage ⟨[], 10, 1⟩ (some tokLowCap) 4).1
        (some tokLowCap) 5 =
      ((Scan.processMessage ⟨[], 10, 1⟩ (some tokLowCap) 4).1, [], none) ∧
    Ws.processMessage FailOracle.ok ⟨[tokLowCap], [], []⟩ (some tokLowCap) 5 =
      (⟨[tokLowCap], [], []⟩, [(WriteOp.saveToken { tokLowCap with createdAt := 5 }, false)],
        some "UNIQUE constraint failed: tokens.mint")) :=
  ⟨rfl, duplicate_ingestion_paths ⟨[], 10, 1⟩ tokLowCap 4 5 ⟨[tokLowCap], [], []⟩ rfl⟩

/-- C5 counterexample: ingesting the same raw payload twice through the
websocket client — the first succeeds, but the second is not a seen-set
no-op: it attempts a second store write and returns the duplicate-key
error. -/
theorem duplicate_payload_cex :
    (Ws.processMessage FailOracle.ok DB.empty (some tokLowCap) 7).2.2 = none ∧
    (Ws.processMessage FailOracle.ok
        (Ws.processMessage FailOracle.ok DB.empty (some tokLowCap) 7).1
        (some tokLowCap) 8).2 =
      ([(WriteOp.saveToken { tokLowCap with createdAt := 8 }, false)],
        some "UNIQUE constraint failed: tokens.mint") := by
  constructor <;> rfl

/-- C7: on successful ingestion of a fresh token the websocket client
performs exactly three store writes in order — the creation event, the
initial price point at the event's initial-buy value stamped with the
observation time, and the profit/loss record with initial = current = that
price and both deltas zero — and when any of the three writes fails, its
error is surfaced and the earlier writes of the sequence stay in the
store. -/
theorem processMessage_write_sequence (o : FailOracle) (db : DB) (tok : NewToken) (now : ℕ)
    (hfresh : db.hasMint tok.mint = false)
    (hpk : db.priceHistory.any (fun q => q.mint == tok.mint && q.timestamp == now) = false) :
    (o = FailOracle.ok →
      Ws.processMessage o db (some tok) now =
        ({ tokens := db.tokens ++ [{ tok with createdAt := now }],
           priceHistory := db.priceHistory ++ [⟨tok.mint, tok.initialBuy, now⟩],
           profitLoss := db.profitLoss.filter (fun r => !(r.mint == tok.mint)) ++
             [⟨tok.mint, tok.initialBuy, tok.initialBuy, 0, GoFloat.fin 0, now⟩] },
         [(WriteOp.saveToken { tok with createdAt := now }, true),
          (WriteOp.savePrice ⟨tok.mint, tok.initialBuy, now⟩, true),
          (WriteOp.upsertPL ⟨tok.mint, tok.initialBuy, tok.initialBuy, 0, GoFloat.fin 0, now⟩,
            true)], none)) ∧
    (∀ e, o.tokenWriteErr = some e →
      Ws.processMessage o db (some tok) now =
        (db, [(WriteOp.saveToken { tok with createdAt := now }, false)], some e)) ∧
    (∀ e, o.tokenWriteErr = none → o.priceWriteErr = some e →
      Ws.processMessage o db (some tok) now =
        ({ db with tokens := db.tokens ++ [{ tok with createdAt := now }] },
         [(WriteOp.saveToken { tok with createdAt := now }, true),
          (WriteOp.savePrice ⟨tok.mint, tok.initialBuy, now⟩, false)], some e)) ∧
    (∀ e, o.tokenWriteErr = none → o.priceWriteErr = none → o.plWriteErr = some e →
      Ws.processMessage o db (some tok) now =
        ({ db with
            tokens := db.tokens ++ [{ tok with createdAt := now }],
            priceHistory := db.priceHistory ++ [⟨tok.mint, tok.initialBuy, now⟩] },
         [(WriteOp.saveToken { tok with createdAt := now }, true),
          (WriteOp.savePrice ⟨tok.mint, tok.initialBuy, now⟩, true),
          (WriteOp.upsertPL ⟨tok.mint, tok.initialBuy, tok.initialBuy, 0, GoFloat.fin 0, now⟩,
            false)], some e)) := by
  refine ⟨?_, ?_, ?_, ?_⟩
  · rintro rfl
    simp [Ws.processMessage, FailOracle.ok, saveNewToken, saveTokenPrice, dbUpdateProfitLoss,
      hfresh, hpk]
  · rintro e he
    simp [Ws.processMessage, he]
  · rintro e h1 h2
    simp [Ws.processMessage, h1, h2, saveNewToken, hfresh]
  · rintro e h1 h2 h3
    simp [Ws.processMessage, h1, h2, h3, saveNewToken, saveTokenPrice, hfresh, hpk]

/-- Witness for processMessage_write_sequence: the concrete event ingested
into the empty store with no injected write failures. -/
theorem processMessage_write_sequence_w :
    DB.empty.hasMint tokLowCap.mint = false ∧
    DB.empty.priceHistory.any (fun q => q.mint == tokLowCap.mint && q.timestamp == 7) = false ∧
    ((FailOracle.ok = FailOracle.ok →
      Ws.processMessage FailOracle.ok DB.empty (some tokLowCap) 7 =
        ({ tokens := DB.empty.tokens ++ [{ tokLowCap with createdAt := 7 }],
           priceHistory := DB.empty.priceHistory ++ [⟨tokLowCap.mint, tokLowCap.initialBuy, 7⟩],
           profitLoss := DB.empty.profitLoss.filter (fun r => !(r.mint == tokLowCap.mint)) ++
             [⟨tokLowCap.mint, tokLowCap.initialBuy, tokLowCap.initialBuy, 0, GoFloat.fin 0, 7⟩] },
         [(WriteOp.saveToken { tokLowCap with createdAt := 7 }, true),
          (WriteOp.savePrice ⟨tokLowCap.mint, tokLowCap.initialBuy, 7⟩, true),
          (WriteOp.upsertPL
            ⟨tokLowCap.mint, tokLowCap.initialBuy, tokLowCap.initialBuy, 0, GoFloat.fin 0, 7⟩,
            true)], none)) ∧
    (∀ e, FailOracle.ok.tokenWriteErr = some e →
      Ws.processMessage FailOracle.ok DB.empty (some tokLowCap) 7 =
        (DB.empty, [(WriteOp.saveToken { tokLowCap with createdAt := 7 }, false)], some e)) ∧
    (∀ e, FailOracle.ok.tokenWriteErr = none → FailOracle.ok.priceWriteErr = some e →
      Ws.processMessage FailOracle.ok DB.empty (some tokLowCap) 7 =
        ({ DB.empty with tokens := DB.empty.tokens ++ [{ tokLowCap with createdAt := 7 }] },
         [(WriteOp.saveToken { tokLowCap with createdAt := 7 }, true),
          (WriteOp.savePrice ⟨tokLowCap.mint, tokLowCap.initialBuy, 7⟩, false)], some e)) ∧
    (∀ e, FailOracle.ok.tokenWriteErr = none → FailOracle.ok.priceWriteErr = none →
        FailOracle.ok.plWriteErr = some e →
      Ws.processMessage FailOracle.ok DB.empty (some tokLowCap) 7 =
        ({ DB.empty with
            tokens := DB.empty.tokens ++ [{ tokLowCap with createdAt := 7 }],
            priceHistory := DB.empty.priceHistory ++ [⟨tokLowCap.mint, tokLowCap.initialBuy, 7⟩] },
         [(WriteOp.saveToken { tokLowCap with createdAt := 7 }, true),
          (WriteOp.savePrice ⟨tokLowCap.mint, tokLowCap.initialBuy, 7⟩, true),
          (WriteOp.upsertPL
            ⟨tokLowCap.mint, tokLowCap.initialBuy, tokLowCap.initialBuy, 0, GoFloat.fin 0, 7⟩,
            false)], some e))) :=
  ⟨rfl, rfl, processMessage_write_sequence FailOracle.ok DB.empty tokLowCap 7 rfl rfl⟩

/-- C9 counterexample: with shutdown already signalled, the scanner's
reconnect wait still sleeps the full 5-second delay rather than aborting —
the sleep's duration is independent of the shutdown flag. -/
theorem scheduleReconnect_full_sleep_cex :
    Scan.scheduleReconnect ⟨false, true⟩ = (⟨true, true⟩, 5) ∧ (5 : ℕ) ≠ 0 := by
  refine ⟨by simp [Scan.scheduleReconnect], by simp⟩

end Sniper
